import Mathlib

/-!
Shallow embedding of the SMA billing core: the scope-authorization helper
(`buildScopeFilter`), the billing generation / recalculation service
(`BillingReportService`), and the retention sweep (`RetentionService`).
JavaScript numbers are modelled as rationals, timestamps as integers
(days), and the Prisma store as explicit lists threaded through each
operation.  Operations return the updated store together with an
`Except` mirroring the thrown service errors; an error always pairs
with the unchanged input store, matching the fact that every write in
the source happens either as the last step or inside a transaction.
-/

namespace SMA

-- ── Roles and caller identity (middleware/auth.ts) ───────────────────

inductive Role
  | SUPER_ADMIN
  | STATE_ADMIN
  | BOARD_ADMIN
  | SUPPORT_AGENT
  | AUDITOR
  deriving DecidableEq, Repr

structure AuthUser where
  id : String
  role : Role
  stateId : Option String
  boardId : Option String
  deriving DecidableEq, Repr

-- ── Errors (lib/errors.ts) ───────────────────────────────────────────

inductive SvcError
  | notFound (entity : String) (id : String)
  | badRequest (message : String)
  | internal (message : String)
  deriving DecidableEq, Repr

/-- True exactly when a service result is a `NotFoundError` (HTTP 404). -/
def resultIsNotFound {α : Type} : Except SvcError α → Bool
  | Except.error (SvcError.notFound _ _) => true
  | _ => false

-- ── JS number semantics ──────────────────────────────────────────────

/-- JavaScript `Math.round`: round half toward positive infinity. -/
def jsRound (x : ℚ) : ℤ := ⌊x + 1/2⌋

/-- `BillingReportService.round`: `Math.round(value * 100) / 100`. -/
def round2 (x : ℚ) : ℚ := (jsRound (x * 100) : ℚ) / 100

/-- Round half away from zero, the rule named by the spec's numeric
    semantics section; used to compare against the code's `Math.round`. -/
def roundHalfAway (x : ℚ) : ℤ := if 0 ≤ x then ⌊x + 1/2⌋ else -⌊-x + 1/2⌋

/-- Two-decimal rounding under round-half-away-from-zero. -/
def roundHalfAway2 (x : ℚ) : ℚ := (roundHalfAway (x * 100) : ℚ) / 100

-- ── Data model (prisma schema, as documented in the API reference) ──

structure Consumer where
  id : String
  stateId : String
  boardId : String
  deriving DecidableEq, Repr

structure SmartMeter where
  id : String
  consumerId : String
  tariffId : String
  deriving DecidableEq, Repr

structure Tariff where
  id : String
  unitRate : ℚ
  fixedCharge : ℚ
  deriving DecidableEq, Repr

structure MeterReading where
  meterId : String
  timestamp : Int
  consumption : ℚ
  voltage : Option ℚ
  current : Option ℚ
  deriving DecidableEq, Repr

structure BillingReport where
  id : Nat
  meterId : String
  tariffId : String
  billingStart : Int
  billingEnd : Int
  totalUnits : ℚ
  energyCharge : ℚ
  fixedCharge : ℚ
  taxAmount : Option ℚ
  totalAmount : ℚ
  version : Nat
  isLatest : Bool
  deriving DecidableEq, Repr

structure RecalculationLog where
  billingReportId : Nat
  reason : String
  triggeredBy : String
  previousVersion : Nat
  newVersion : Nat
  deriving DecidableEq, Repr

structure CustomerBillView where
  billingReportId : Nat
  consumerId : String
  viewedAt : Int
  deriving DecidableEq, Repr

structure UserRow where
  id : String
  stateId : Option String
  boardId : Option String
  deriving DecidableEq, Repr

structure AuditLogRow where
  userId : String
  createdAt : Int
  deriving DecidableEq, Repr

structure GeneratedReportFileRow where
  stateId : Option String
  boardId : Option String
  createdAt : Int
  deriving DecidableEq, Repr

structure CustomerQueryRow where
  consumerId : String
  createdAt : Int
  deriving DecidableEq, Repr

inductive RetentionEntityType
  | MeterReading
  | AuditLog
  | GeneratedReportFile
  | CustomerQuery
  deriving DecidableEq, Repr

structure DataRetentionPolicy where
  id : String
  stateId : Option String
  boardId : Option String
  entityType : RetentionEntityType
  retentionDays : Int
  deriving DecidableEq, Repr

/-- The relational store, one list per table, plus the id sequence for
    `BillingReport` rows (string ids of the other tables are part of the
    row data). -/
structure Store where
  consumers : List Consumer
  meters : List SmartMeter
  tariffs : List Tariff
  readings : List MeterReading
  bills : List BillingReport
  recalcLogs : List RecalculationLog
  billViews : List CustomerBillView
  users : List UserRow
  auditLogs : List AuditLogRow
  reportFiles : List GeneratedReportFileRow
  queries : List CustomerQueryRow
  policies : List DataRetentionPolicy
  nextId : Nat
  deriving DecidableEq, Repr

def emptyStore : Store :=
  ⟨[], [], [], [], [], [], [], [], [], [], [], [], 0⟩

def findConsumer (s : Store) (cid : String) : Option Consumer :=
  s.consumers.find? (fun c => c.id == cid)

def findMeter (s : Store) (mid : String) : Option SmartMeter :=
  s.meters.find? (fun m => m.id == mid)

def findTariff (s : Store) (tid : String) : Option Tariff :=
  s.tariffs.find? (fun t => t.id == tid)

-- ── Scope filter (helper/service.helper.ts: buildScopeFilter) ────────

/-- The Prisma `where` fragment returned by `buildScopeFilter`:
    either the empty object (no restriction) or a single
    `stateId` / `boardId` equality. -/
inductive ScopeFilter
  | noFilter
  | byState (stateId : String)
  | byBoard (boardId : String)
  deriving DecidableEq, Repr

/-- `buildScopeFilter` from `helper/service.helper.ts`, clause for
    clause: SUPER_ADMIN gets no restriction; STATE_ADMIN with a
    configured `stateId` (resp. BOARD_ADMIN with a `boardId`) gets the
    matching equality; everything else — including the SUPPORT_AGENT /
    AUDITOR comment's fallthrough, which admins lacking their id also
    reach — uses `boardId` if set, else `stateId` if set, else no
    restriction. -/
def buildScopeFilter (user : AuthUser) : ScopeFilter :=
  match user.role, user.stateId, user.boardId with
  | Role.SUPER_ADMIN, _, _ => ScopeFilter.noFilter
  | Role.STATE_ADMIN, some st, _ => ScopeFilter.byState st
  | Role.BOARD_ADMIN, _, some b => ScopeFilter.byBoard b
  | _, _, some b => ScopeFilter.byBoard b
  | _, some st, _ => ScopeFilter.byState st
  | _, _, _ => ScopeFilter.noFilter

def consumerMatches (f : ScopeFilter) (c : Consumer) : Bool :=
  match f with
  | ScopeFilter.noFilter => true
  | ScopeFilter.byState st => c.stateId == st
  | ScopeFilter.byBoard b => c.boardId == b

/-- `buildMeterScopeFilter` composed with the Prisma relation walk:
    whether a meter row satisfies `{ consumer: buildScopeFilter(user) }`.
    An empty base filter imposes no consumer condition at all. -/
def meterInScope (s : Store) (user : AuthUser) (m : SmartMeter) : Bool :=
  match buildScopeFilter user with
  | ScopeFilter.noFilter => true
  | f =>
    match findConsumer s m.consumerId with
    | some c => consumerMatches f c
    | none => false

/-- Whether a billing report satisfies `{ meter: { ...scopeFilter } }`:
    the report's meter's consumer must match the caller's scope. -/
def billInScope (s : Store) (user : AuthUser) (r : BillingReport) : Bool :=
  match buildScopeFilter user with
  | ScopeFilter.noFilter => true
  | f =>
    match findMeter s r.meterId with
    | some m =>
      match findConsumer s m.consumerId with
      | some c => consumerMatches f c
      | none => false
    | none => false

-- ── BillingReportService private helpers ─────────────────────────────

/-- `findMeterOrThrow`: `findFirst({ id, ...buildMeterScopeFilter(user) })`,
    404 on no match. -/
def findMeterOrThrow (s : Store) (meterId : String) (user : AuthUser) :
    Except SvcError SmartMeter :=
  match s.meters.find? (fun m => m.id == meterId && meterInScope s user m) with
  | some m => Except.ok m
  | none => Except.error (SvcError.notFound "SmartMeter" meterId)

/-- `assertMeterScope`: post-load scope check used by `recalculateBill`.
    Note it throws `BadRequestError`, not `NotFoundError`, and checks
    nothing when the caller's own id field is unset or the role is
    AUDITOR. -/
def assertMeterScope (user : AuthUser) (consumer : Consumer) : Option SvcError :=
  match user.role with
  | Role.SUPER_ADMIN => none
  | Role.STATE_ADMIN =>
    match user.stateId with
    | some st =>
      if st ≠ consumer.stateId then
        some (SvcError.badRequest "Meter does not belong to your state")
      else none
    | none => none
  | Role.BOARD_ADMIN | Role.SUPPORT_AGENT =>
    match user.boardId with
    | some b =>
      if b ≠ consumer.boardId then
        some (SvcError.badRequest "Meter does not belong to your board")
      else none
    | none => none
  | Role.AUDITOR => none

/-- The `meterReading.findMany` window query: readings of a meter whose
    timestamp lies in the inclusive window `[a, b]`. -/
def billingReadings (s : Store) (meterId : String) (a b : Int) :
    List MeterReading :=
  s.readings.filter
    (fun r => r.meterId == meterId && decide (a ≤ r.timestamp) && decide (r.timestamp ≤ b))

/-- `readings.reduce((sum, r) => sum + r.consumption, 0)`. -/
def sumConsumption (rs : List MeterReading) : ℚ :=
  rs.foldl (fun acc r => acc + r.consumption) 0

-- ── generateBill ─────────────────────────────────────────────────────

structure GenerateBillInput where
  meterId : String
  billingStart : Int
  billingEnd : Int
  taxRate : Option ℚ
  deriving DecidableEq, Repr

/-- The charge computation and report row built by `generateBill`
    (source lines: aggregate, look up tariff, calculate charges,
    persist with `version = 1`, `isLatest = true`). -/
def genNewReport (s : Store) (input : GenerateBillInput) (meter : SmartMeter)
    (tariff : Tariff) : BillingReport :=
  let totalUnits :=
    sumConsumption (billingReadings s meter.id input.billingStart input.billingEnd)
  let energyCharge := round2 (totalUnits * tariff.unitRate)
  let fixedCharge := round2 tariff.fixedCharge
  let subtotal := energyCharge + fixedCharge
  let taxRate := input.taxRate.getD 0
  let taxAmount := round2 (subtotal * taxRate)
  let totalAmount := round2 (subtotal + taxAmount)
  { id := s.nextId
    meterId := meter.id
    tariffId := tariff.id
    billingStart := input.billingStart
    billingEnd := input.billingEnd
    totalUnits := round2 totalUnits
    energyCharge := energyCharge
    fixedCharge := fixedCharge
    taxAmount := some taxAmount
    totalAmount := totalAmount
    version := 1
    isLatest := true }

/-- `BillingReportService.generateBill` (dates already parsed):
    date-range check, scoped meter lookup, aggregation of readings in
    the inclusive window (error when empty), tariff lookup via the
    meter's `tariffId`, charge computation, and persistence of a
    `version = 1`, `isLatest = true` report. -/
def generateBill (s : Store) (input : GenerateBillInput) (user : AuthUser) :
    Store × Except SvcError BillingReport :=
  if input.billingStart ≥ input.billingEnd then
    (s, Except.error (SvcError.badRequest "Start date must be before end date"))
  else
    match findMeterOrThrow s input.meterId user with
    | Except.error e => (s, Except.error e)
    | Except.ok meter =>
      if (billingReadings s meter.id input.billingStart input.billingEnd).isEmpty then
        (s, Except.error (SvcError.badRequest
          "No meter readings found for the specified billing period"))
      else
        match findTariff s meter.tariffId with
        | none => (s, Except.error (SvcError.notFound "Tariff" meter.tariffId))
        | some tariff =>
          let report := genNewReport s input meter tariff
          ({ s with bills := s.bills ++ [report], nextId := s.nextId + 1 },
           Except.ok report)

-- ── recalculateBill ──────────────────────────────────────────────────

structure RecalculateInput where
  billingReportId : Nat
  reason : String
  deriving DecidableEq, Repr

/-- Effect of `update({ where: { id }, data: { isLatest: false } })` on
    one row. -/
def flipOne (bid : Nat) (r : BillingReport) : BillingReport :=
  if r.id == bid then { r with isLatest := false } else r

/-- `update({ where: { id }, data: { isLatest: false } })` on the bills
    table. -/
def flipLatest (bills : List BillingReport) (bid : Nat) : List BillingReport :=
  bills.map (flipOne bid)

/-- The recomputation block of `recalculateBill`: re-aggregate the same
    window, recompute charges from the tariff row the original bill
    references (`existing.tariff`), preserve the original tax ratio
    when the original `taxAmount` is truthy (non-null and non-zero),
    and build the superseding row with `version + 1`, `isLatest = true`. -/
def recalcNewReport (s : Store) (existing : BillingReport) (tariff : Tariff) :
    BillingReport :=
  let totalUnits :=
    sumConsumption (billingReadings s existing.meterId existing.billingStart existing.billingEnd)
  let energyCharge := round2 (totalUnits * tariff.unitRate)
  let fixedCharge := round2 tariff.fixedCharge
  let subtotal := energyCharge + fixedCharge
  let taxAmount : ℚ :=
    match existing.taxAmount with
    | some t =>
      if t ≠ 0 then
        round2 (subtotal * (t / (existing.energyCharge + existing.fixedCharge)))
      else 0
    | none => 0
  { id := s.nextId
    meterId := existing.meterId
    tariffId := existing.tariffId
    billingStart := existing.billingStart
    billingEnd := existing.billingEnd
    totalUnits := round2 totalUnits
    energyCharge := energyCharge
    fixedCharge := fixedCharge
    taxAmount := some taxAmount
    totalAmount := round2 (subtotal + taxAmount)
    version := existing.version + 1
    isLatest := true }

/-- `BillingReportService.recalculateBill`, with three booleans
    injecting a storage-layer failure before each of the three writes
    of the `prisma.$transaction` callback: when any injected failure
    (or any earlier check) fires, the transaction rolls back and the
    caller observes the untouched store.
    The required Prisma relations `existing.meter`, `meter.consumer`
    and `existing.tariff` are loaded by `include`; on stores with the
    schema's referential integrity the corresponding lookups succeed.
    Note: the tariff is looked up through `existing.tariffId` — the
    tariff the original bill was computed with — and the re-aggregated
    window may be empty (no emptiness check is performed here). -/
def recalculateBillWith (fail1 fail2 fail3 : Bool) (s : Store)
    (input : RecalculateInput) (user : AuthUser) :
    Store × Except SvcError BillingReport :=
  match s.bills.find? (fun r => r.id == input.billingReportId) with
  | none =>
    (s, Except.error (SvcError.notFound "BillingReport" (toString input.billingReportId)))
  | some existing =>
    match findMeter s existing.meterId with
    | none => (s, Except.error (SvcError.notFound "SmartMeter" existing.meterId))
    | some meter =>
      match findConsumer s meter.consumerId with
      | none => (s, Except.error (SvcError.notFound "Consumer" meter.consumerId))
      | some consumer =>
        match assertMeterScope user consumer with
        | some e => (s, Except.error e)
        | none =>
          match findTariff s existing.tariffId with
          | none => (s, Except.error (SvcError.notFound "Tariff" existing.tariffId))
          | some tariff =>
            if fail1 then (s, Except.error (SvcError.internal "transaction step failed"))
            else
              let s1 := { s with bills := flipLatest s.bills existing.id }
              if fail2 then (s, Except.error (SvcError.internal "transaction step failed"))
              else
                let newReport := recalcNewReport s existing tariff
                let s2 := { s1 with bills := s1.bills ++ [newReport], nextId := s.nextId + 1 }
                if fail3 then (s, Except.error (SvcError.internal "transaction step failed"))
                else
                  let logRow : RecalculationLog :=
                    { billingReportId := newReport.id
                      reason := input.reason
                      triggeredBy := user.id
                      previousVersion := existing.version
                      newVersion := existing.version + 1 }
                  ({ s2 with recalcLogs := s2.recalcLogs ++ [logRow] },
                   Except.ok newReport)

/-- `recalculateBill` as it runs when no storage failure occurs. -/
def recalculateBill (s : Store) (input : RecalculateInput) (user : AuthUser) :
    Store × Except SvcError BillingReport :=
  recalculateBillWith false false false s input user

-- ── Read operations / consumer self-service ──────────────────────────

/-- `getBillById`: scoped `findFirst({ id, meter: scopeFilter })`,
    404 when the row is absent or out of scope. -/
def getBillById (s : Store) (billId : Nat) (user : AuthUser) :
    Except SvcError BillingReport :=
  match s.bills.find? (fun r => r.id == billId && billInScope s user r) with
  | some r => Except.ok r
  | none => Except.error (SvcError.notFound "BillingReport" (toString billId))

/-- `recordBillView`: checks only that the billing report exists, then
    appends a `CustomerBillView` row for the given consumer. -/
def recordBillView (s : Store) (billingReportId : Nat) (consumerId : String)
    (now : Int) : Store × Except SvcError CustomerBillView :=
  match s.bills.find? (fun r => r.id == billingReportId) with
  | none =>
    (s, Except.error (SvcError.notFound "BillingReport" (toString billingReportId)))
  | some _ =>
    let view : CustomerBillView :=
      { billingReportId := billingReportId, consumerId := consumerId, viewedAt := now }
    ({ s with billViews := s.billViews ++ [view] }, Except.ok view)

-- ── RetentionService (notification.service.ts) ──────────────────────

/-- Whether a meter reading matches the policy scope relation walk
    `meter → consumer`: `boardId` takes precedence, else `stateId`,
    else no restriction. A broken relation path matches nothing. -/
def readingScopeOk (s : Store) (stateId boardId : Option String)
    (r : MeterReading) : Bool :=
  match boardId with
  | some b =>
    match findMeter s r.meterId with
    | some m =>
      match findConsumer s m.consumerId with
      | some c => c.boardId == b
      | none => false
    | none => false
  | none =>
    match stateId with
    | some st =>
      match findMeter s r.meterId with
      | some m =>
        match findConsumer s m.consumerId with
        | some c => c.stateId == st
        | none => false
      | none => false
    | none => true

/-- Audit-log policy scope via the acting user row. -/
def auditScopeOk (s : Store) (stateId boardId : Option String)
    (a : AuditLogRow) : Bool :=
  match boardId with
  | some b =>
    match s.users.find? (fun u => u.id == a.userId) with
    | some u => u.boardId == some b
    | none => false
  | none =>
    match stateId with
    | some st =>
      match s.users.find? (fun u => u.id == a.userId) with
      | some u => u.stateId == some st
      | none => false
    | none => true

/-- Report files carry their scope columns directly. -/
def fileScopeOk (stateId boardId : Option String)
    (f : GeneratedReportFileRow) : Bool :=
  match boardId with
  | some b => f.boardId == some b
  | none =>
    match stateId with
    | some st => f.stateId == some st
    | none => true

/-- Customer-query policy scope via the owning consumer. -/
def queryScopeOk (s : Store) (stateId boardId : Option String)
    (q : CustomerQueryRow) : Bool :=
  match boardId with
  | some b =>
    match findConsumer s q.consumerId with
    | some c => c.boardId == b
    | none => false
  | none =>
    match stateId with
    | some st =>
      match findConsumer s q.consumerId with
      | some c => c.stateId == st
      | none => false
    | none => true

/-- `RetentionService.deleteOldRecords`: one `deleteMany` per entity
    type, `timestamp`/`createdAt` strictly below the cutoff, scoped by
    `boardId` first, else `stateId`, else global; returns the deleted
    row count. -/
def deleteOldRecords (s : Store) (entityType : RetentionEntityType)
    (cutoff : Int) (stateId boardId : Option String) : Store × Nat :=
  match entityType with
  | RetentionEntityType.MeterReading =>
    let gone := fun (r : MeterReading) =>
      readingScopeOk s stateId boardId r && decide (r.timestamp < cutoff)
    ({ s with readings := s.readings.filter (fun r => !(gone r)) },
     (s.readings.filter gone).length)
  | RetentionEntityType.AuditLog =>
    let gone := fun (a : AuditLogRow) =>
      auditScopeOk s stateId boardId a && decide (a.createdAt < cutoff)
    ({ s with auditLogs := s.auditLogs.filter (fun a => !(gone a)) },
     (s.auditLogs.filter gone).length)
  | RetentionEntityType.GeneratedReportFile =>
    let gone := fun (f : GeneratedReportFileRow) =>
      fileScopeOk stateId boardId f && decide (f.createdAt < cutoff)
    ({ s with reportFiles := s.reportFiles.filter (fun f => !(gone f)) },
     (s.reportFiles.filter gone).length)
  | RetentionEntityType.CustomerQuery =>
    let gone := fun (q : CustomerQueryRow) =>
      queryScopeOk s stateId boardId q && decide (q.createdAt < cutoff)
    ({ s with queries := s.queries.filter (fun q => !(gone q)) },
     (s.queries.filter gone).length)

structure CleanupResult where
  policyId : String
  entityType : RetentionEntityType
  retentionDays : Int
  cutoffDate : Int
  deletedCount : Nat
  deriving DecidableEq, Repr

/-- The `for (const policy of policies)` loop of `runRetentionCleanup`.
    `failP` injects a storage-layer throw for a policy; the catch block
    logs it and keeps `deletedCount = 0`, and the loop continues. -/
def runSweep (failP : DataRetentionPolicy → Bool) (now : Int) :
    Store → List DataRetentionPolicy → Store × List CleanupResult
  | s, [] => (s, [])
  | s, p :: ps =>
    let cutoff := now - p.retentionDays
    let step :=
      if failP p then (s, 0)
      else deleteOldRecords s p.entityType cutoff p.stateId p.boardId
    let rest := runSweep failP now step.1 ps
    (rest.1,
     { policyId := p.id
       entityType := p.entityType
       retentionDays := p.retentionDays
       cutoffDate := cutoff
       deletedCount := step.2 } :: rest.2)

/-- `RetentionService.runRetentionCleanup`: sweep every stored policy. -/
def runRetentionCleanup (failP : DataRetentionPolicy → Bool) (now : Int)
    (s : Store) : Store × List CleanupResult :=
  runSweep failP now s s.policies

-- ── Bill version ledger: operation traces ────────────────────────────

/-- The logical-bill identity `(meterId, billingStart, billingEnd)`. -/
def billKey (r : BillingReport) : String × Int × Int :=
  (r.meterId, r.billingStart, r.billingEnd)

/-- All stored versions of one logical bill. -/
def billsFor (bills : List BillingReport) (k : String × Int × Int) :
    List BillingReport :=
  bills.filter (fun r => decide (billKey r = k))

/-- The spec's per-logical-bill invariant: version numbers are exactly
    `1, 2, …, n` (as a multiset), exactly one row is the latest, and
    the latest row carries the highest version. -/
def KeyInv (R : List BillingReport) : Prop :=
  (R.map (fun r => r.version)).Perm (List.range' 1 R.length) ∧
  (R.filter (fun r => r.isLatest)).length = 1 ∧
  ∀ r ∈ R, r.isLatest = true → r.version = R.length

instance (R : List BillingReport) : Decidable (KeyInv R) := by
  unfold KeyInv; infer_instance

/-- Store-wide ledger invariant: bill ids are below the id sequence and
    pairwise distinct, and every logical bill present satisfies
    `KeyInv`. -/
def LedgerInv (s : Store) : Prop :=
  (∀ r ∈ s.bills, r.id < s.nextId) ∧
  (s.bills.map (fun r => r.id)).Nodup ∧
  ∀ r ∈ s.bills, KeyInv (billsFor s.bills (billKey r))

instance (s : Store) : Decidable (LedgerInv s) := by
  unfold LedgerInv; infer_instance

/-- A billing mutation: bill generation or recalculation. -/
inductive BillingOp
  | gen (input : GenerateBillInput) (user : AuthUser)
  | recalc (input : RecalculateInput) (user : AuthUser)

/-- Effect of one operation on the store (the returned row is dropped). -/
def applyOp (s : Store) : BillingOp → Store
  | BillingOp.gen input user => (generateBill s input user).1
  | BillingOp.recalc input user => (recalculateBill s input user).1

def runOps (s : Store) (ops : List BillingOp) : Store :=
  ops.foldl applyOp s

/-- Side conditions under which the ledger invariant is preserved:
    a generation must target a logical bill with no stored row yet, and
    a recalculation must target the current latest row (the service
    checks neither). -/
def opValid (s : Store) : BillingOp → Bool
  | BillingOp.gen input _ =>
    s.bills.all
      (fun r => !(decide (billKey r = (input.meterId, input.billingStart, input.billingEnd))))
  | BillingOp.recalc input _ =>
    s.bills.all (fun r => !(r.id == input.billingReportId) || r.isLatest)

def validOps : Store → List BillingOp → Bool
  | _, [] => true
  | s, op :: ops => opValid s op && validOps (applyOp s op) ops

-- ── Shape lemmas for the two mutating operations ─────────────────────

theorem flipOne_id (bid : Nat) (r : BillingReport) : (flipOne bid r).id = r.id := by
  unfold flipOne; split <;> rfl

theorem flipOne_key (bid : Nat) (r : BillingReport) :
    billKey (flipOne bid r) = billKey r := by
  unfold flipOne; split <;> rfl

theorem flipOne_version (bid : Nat) (r : BillingReport) :
    (flipOne bid r).version = r.version := by
  unfold flipOne; split <;> rfl

theorem recalcNewReport_id (s : Store) (ex : BillingReport) (t : Tariff) :
    (recalcNewReport s ex t).id = s.nextId := rfl

theorem recalcNewReport_version (s : Store) (ex : BillingReport) (t : Tariff) :
    (recalcNewReport s ex t).version = ex.version + 1 := rfl

theorem recalcNewReport_isLatest (s : Store) (ex : BillingReport) (t : Tariff) :
    (recalcNewReport s ex t).isLatest = true := rfl

theorem recalcNewReport_key (s : Store) (ex : BillingReport) (t : Tariff) :
    billKey (recalcNewReport s ex t) = billKey ex := rfl

theorem genNewReport_id (s : Store) (i : GenerateBillInput) (m : SmartMeter)
    (t : Tariff) : (genNewReport s i m t).id = s.nextId := rfl

theorem genNewReport_version (s : Store) (i : GenerateBillInput) (m : SmartMeter)
    (t : Tariff) : (genNewReport s i m t).version = 1 := rfl

theorem genNewReport_isLatest (s : Store) (i : GenerateBillInput) (m : SmartMeter)
    (t : Tariff) : (genNewReport s i m t).isLatest = true := rfl

theorem findMeterOrThrow_ok (s : Store) (mid : String) (u : AuthUser)
    (m : SmartMeter) (h : findMeterOrThrow s mid u = Except.ok m) :
    m ∈ s.meters ∧ m.id = mid ∧ meterInScope s u m = true := by
  unfold findMeterOrThrow at h
  rcases hf : s.meters.find? (fun m0 => m0.id == mid && meterInScope s u m0) with _ | m'
  · rw [hf] at h; exact absurd h (by simp)
  · rw [hf] at h
    have hm' : m' = m := by injection h
    subst hm'
    have hp := List.find?_some hf
    have hmem := List.mem_of_find?_eq_some hf
    simp only [Bool.and_eq_true, beq_iff_eq] at hp
    exact ⟨hmem, hp.1, hp.2⟩

/-- Control-flow split of `generateBill`: either some check failed and
    the store is returned untouched with an error, or the meter and
    tariff lookups succeeded and the new report is appended. -/
theorem generateBill_shape (s : Store) (i : GenerateBillInput) (u : AuthUser) :
    (∃ e, generateBill s i u = (s, Except.error e)) ∨
    (∃ m t, findMeterOrThrow s i.meterId u = Except.ok m ∧
      findTariff s m.tariffId = some t ∧
      (billingReadings s m.id i.billingStart i.billingEnd).isEmpty = false ∧
      generateBill s i u =
        ({ s with bills := s.bills ++ [genNewReport s i m t], nextId := s.nextId + 1 },
         Except.ok (genNewReport s i m t))) := by
  by_cases hd : i.billingStart ≥ i.billingEnd
  · refine Or.inl ⟨SvcError.badRequest "Start date must be before end date", ?_⟩
    unfold generateBill
    simp [hd]
  · rcases hm : findMeterOrThrow s i.meterId u with e | m
    · refine Or.inl ⟨e, ?_⟩
      unfold generateBill
      simp [hd, hm]
    · by_cases hr : (billingReadings s m.id i.billingStart i.billingEnd).isEmpty
      · refine Or.inl
          ⟨SvcError.badRequest "No meter readings found for the specified billing period", ?_⟩
        unfold generateBill
        simp [hd, hm, hr]
      · rcases ht : findTariff s m.tariffId with _ | t
        · refine Or.inl ⟨SvcError.notFound "Tariff" m.tariffId, ?_⟩
          unfold generateBill
          simp [hd, hm, hr, ht]
        · refine Or.inr ⟨m, t, rfl, by exact ht,
            by simpa using hr, ?_⟩
          unfold generateBill
          simp [hd, hm, hr, ht]

theorem generateBill_error_store (s : Store) (i : GenerateBillInput) (u : AuthUser)
    (e : SvcError) (h : (generateBill s i u).2 = Except.error e) :
    (generateBill s i u).1 = s := by
  rcases generateBill_shape s i u with ⟨e', hse⟩ | ⟨m, t, _, _, _, hgen⟩
  · rw [hse]
  · rw [hgen] at h; exact absurd h (by simp)

theorem generateBill_ok_shape (s : Store) (i : GenerateBillInput) (u : AuthUser)
    (b : BillingReport) (h : (generateBill s i u).2 = Except.ok b) :
    ∃ m t, findMeterOrThrow s i.meterId u = Except.ok m ∧
      findTariff s m.tariffId = some t ∧
      (billingReadings s m.id i.billingStart i.billingEnd).isEmpty = false ∧
      b = genNewReport s i m t ∧
      (generateBill s i u).1 = { s with bills := s.bills ++ [b], nextId := s.nextId + 1 } := by
  rcases generateBill_shape s i u with ⟨e', hse⟩ | ⟨m, t, hm, ht, hr, hgen⟩
  · rw [hse] at h; exact absurd h (by simp)
  · rw [hgen] at h
    have hb : b = genNewReport s i m t := by symm; injection h
    subst hb
    exact ⟨m, t, hm, ht, hr, rfl, by rw [hgen]⟩

/-- Control-flow split of `recalculateBillWith`: either some check or
    injected transaction failure occurred and the store comes back
    untouched with an error, or all three transaction writes committed. -/
theorem recalcWith_shape (f1 f2 f3 : Bool) (s : Store) (inp : RecalculateInput)
    (u : AuthUser) :
    (∃ e, recalculateBillWith f1 f2 f3 s inp u = (s, Except.error e)) ∨
    (∃ ex tariff, s.bills.find? (fun r => r.id == inp.billingReportId) = some ex ∧
      findTariff s ex.tariffId = some tariff ∧
      recalculateBillWith f1 f2 f3 s inp u =
        ({ s with
            bills := flipLatest s.bills ex.id ++ [recalcNewReport s ex tariff]
            recalcLogs := s.recalcLogs ++
              [⟨s.nextId, inp.reason, u.id, ex.version, ex.version + 1⟩]
            nextId := s.nextId + 1 },
         Except.ok (recalcNewReport s ex tariff))) := by
  rcases hf : s.bills.find? (fun r => r.id == inp.billingReportId) with _ | ex
  · refine Or.inl ⟨SvcError.notFound "BillingReport" (toString inp.billingReportId), ?_⟩
    unfold recalculateBillWith
    simp [hf]
  · rcases hm : findMeter s ex.meterId with _ | m
    · refine Or.inl ⟨SvcError.notFound "SmartMeter" ex.meterId, ?_⟩
      unfold recalculateBillWith
      simp [hf, hm]
    · rcases hc : findConsumer s m.consumerId with _ | c
      · refine Or.inl ⟨SvcError.notFound "Consumer" m.consumerId, ?_⟩
        unfold recalculateBillWith
        simp [hf, hm, hc]
      · rcases hsc : assertMeterScope u c with _ | e
        · rcases ht : findTariff s ex.tariffId with _ | t
          · refine Or.inl ⟨SvcError.notFound "Tariff" ex.tariffId, ?_⟩
            unfold recalculateBillWith
            simp [hf, hm, hc, hsc, ht]
          · cases f1 with
            | true =>
              refine Or.inl ⟨SvcError.internal "transaction step failed", ?_⟩
              unfold recalculateBillWith
              simp [hf, hm, hc, hsc, ht]
            | false =>
              cases f2 with
              | true =>
                refine Or.inl ⟨SvcError.internal "transaction step failed", ?_⟩
                unfold recalculateBillWith
                simp [hf, hm, hc, hsc, ht]
              | false =>
                cases f3 with
                | true =>
                  refine Or.inl ⟨SvcError.internal "transaction step failed", ?_⟩
                  unfold recalculateBillWith
                  simp [hf, hm, hc, hsc, ht]
                | false =>
                  refine Or.inr ⟨ex, t, by exact hf, by exact ht, ?_⟩
                  unfold recalculateBillWith
                  simp [hf, hm, hc, hsc, ht, recalcNewReport_id]
        · refine Or.inl ⟨e, ?_⟩
          unfold recalculateBillWith
          simp [hf, hm, hc, hsc]

theorem recalcWith_error_store (f1 f2 f3 : Bool) (s : Store)
    (inp : RecalculateInput) (u : AuthUser) (e : SvcError)
    (h : (recalculateBillWith f1 f2 f3 s inp u).2 = Except.error e) :
    (recalculateBillWith f1 f2 f3 s inp u).1 = s := by
  rcases recalcWith_shape f1 f2 f3 s inp u with ⟨e', hse⟩ | ⟨ex, t, _, _, hrc⟩
  · rw [hse]
  · rw [hrc] at h; exact absurd h (by simp)

theorem recalcWith_ok_shape (f1 f2 f3 : Bool) (s : Store) (inp : RecalculateInput)
    (u : AuthUser) (b : BillingReport)
    (h : (recalculateBillWith f1 f2 f3 s inp u).2 = Except.ok b) :
    ∃ ex tariff, s.bills.find? (fun r => r.id == inp.billingReportId) = some ex ∧
      findTariff s ex.tariffId = some tariff ∧
      b = recalcNewReport s ex tariff ∧
      (recalculateBillWith f1 f2 f3 s inp u).1 =
        { s with
            bills := flipLatest s.bills ex.id ++ [b]
            recalcLogs := s.recalcLogs ++
              [⟨b.id, inp.reason, u.id, ex.version, ex.version + 1⟩]
            nextId := s.nextId + 1 } := by
  rcases recalcWith_shape f1 f2 f3 s inp u with ⟨e', hse⟩ | ⟨ex, t, hf, ht, hrc⟩
  · rw [hse] at h; exact absurd h (by simp)
  · rw [hrc] at h
    have hb : b = recalcNewReport s ex t := by symm; injection h
    subst hb
    exact ⟨ex, t, hf, ht, rfl, by rw [hrc]; simp [recalcNewReport_id]⟩

-- ── List helpers for the ledger invariant ────────────────────────────

theorem billsFor_append (l l' : List BillingReport) (k : String × Int × Int) :
    billsFor (l ++ l') k = billsFor l k ++ billsFor l' k :=
  List.filter_append ..

theorem mem_billsFor {r : BillingReport} {l : List BillingReport}
    {k : String × Int × Int} : r ∈ billsFor l k ↔ r ∈ l ∧ billKey r = k := by
  unfold billsFor
  simp [List.mem_filter]

theorem billsFor_flip (l : List BillingReport) (bid : Nat) (k : String × Int × Int) :
    billsFor (flipLatest l bid) k = (billsFor l k).map (flipOne bid) := by
  induction l with
  | nil => rfl
  | cons a l ih =>
    unfold flipLatest billsFor at ih ⊢
    by_cases hk : billKey a = k
    · simp [List.filter_cons, flipOne_key, hk, ih]
    · simp [List.filter_cons, flipOne_key, hk, ih]

theorem flipLatest_map_id (l : List BillingReport) (bid : Nat) :
    (flipLatest l bid).map (fun r => r.id) = l.map (fun r => r.id) := by
  unfold flipLatest
  rw [List.map_map]
  exact List.map_congr_left (fun r _ => flipOne_id bid r)

theorem flip_map_version (R : List BillingReport) (bid : Nat) :
    (R.map (flipOne bid)).map (fun r => r.version) = R.map (fun r => r.version) := by
  rw [List.map_map]
  exact List.map_congr_left (fun r _ => flipOne_version bid r)

theorem length_filter_not_add {α : Type} (p : α → Bool) (l : List α) :
    (l.filter p).length + (l.filter (fun a => !(p a))).length = l.length := by
  induction l with
  | nil => rfl
  | cons a l ih => cases ha : p a <;> simp [List.filter_cons, ha, ← ih] <;> omega

-- ── Ledger invariant preservation ────────────────────────────────────

theorem LedgerInv_gen (s : Store) (i : GenerateBillInput) (u : AuthUser)
    (hInv : LedgerInv s) (hop : opValid s (BillingOp.gen i u) = true) :
    LedgerInv ((generateBill s i u).1) := by
  rcases hgb : (generateBill s i u).2 with e | b
  · rw [generateBill_error_store s i u e hgb]; exact hInv
  · obtain ⟨m, t, hm, ht, hr, hb, hstore⟩ := generateBill_ok_shape s i u b hgb
    rw [hstore]
    obtain ⟨hbound, hnodup, hkeys⟩ := hInv
    have hbid : b.id = s.nextId := by rw [hb]; rfl
    have hbver : b.version = 1 := by rw [hb]; rfl
    have hblat : b.isLatest = true := by rw [hb]; rfl
    have hbkey : billKey b = (i.meterId, i.billingStart, i.billingEnd) := by
      obtain ⟨-, hmid, -⟩ := findMeterOrThrow_ok s i.meterId u m hm
      rw [hb]
      unfold billKey genNewReport
      simp [hmid]
    have hfresh : ∀ r ∈ s.bills,
        billKey r ≠ (i.meterId, i.billingStart, i.billingEnd) := by
      intro r hrmem
      unfold opValid at hop
      simp only [List.all_eq_true, Bool.not_eq_eq_eq_not, Bool.not_true,
        decide_eq_false_iff_not] at hop
      exact hop r hrmem
    have hBnew : billsFor s.bills (billKey b) = [] := by
      apply List.filter_eq_nil_iff.mpr
      intro a ha
      simp only [decide_eq_true_eq]
      rw [hbkey]
      exact fun h => hfresh a ha h
    refine ⟨?_, ?_, ?_⟩
    · intro r hrmem
      simp only [List.mem_append, List.mem_singleton] at hrmem
      rcases hrmem with hrold | hrb
      · exact Nat.lt_succ_of_lt (hbound r hrold)
      · rw [hrb, hbid]; exact Nat.lt_succ_self _
    · simp only [List.map_append, List.map_cons, List.map_nil]
      rw [List.nodup_append]
      refine ⟨hnodup, List.nodup_singleton _, ?_⟩
      intro x hx hxb
      simp only [List.mem_singleton] at hxb
      obtain ⟨r0, hr0, hr0x⟩ := List.mem_map.mp hx
      have := hbound r0 hr0
      omega
    · intro r hrmem
      rw [billsFor_append]
      rcases List.mem_append.mp hrmem with hrold | hrb
      · have hk : billKey r ≠ (i.meterId, i.billingStart, i.billingEnd) :=
          hfresh r hrold
        have hnone : billsFor [b] (billKey r) = [] := by
          apply List.filter_eq_nil_iff.mpr
          intro a ha
          simp only [List.mem_singleton] at ha
          subst ha
          simp only [decide_eq_true_eq]
          rw [hbkey]
          exact fun h => hk h.symm
        rw [hnone, List.append_nil]
        exact hkeys r hrold
      · have hrb' : r = b := by simpa using hrb
        subst hrb'
        rw [hBnew, List.nil_append]
        have hself : billsFor [r] (billKey r) = [r] := by
          unfold billsFor; simp
        rw [hself]
        refine ⟨?_, ?_, ?_⟩
        · simp [hbver, List.range'_one]
        · simp [hblat]
        · intro r' hr' _
          simp only [List.mem_singleton] at hr'
          subst hr'
          simp [hbver]

theorem LedgerInv_recalc (s : Store) (inp : RecalculateInput) (u : AuthUser)
    (hInv : LedgerInv s) (hop : opValid s (BillingOp.recalc inp u) = true) :
    LedgerInv ((recalculateBill s inp u).1) := by
  rcases hrb : (recalculateBillWith false false false s inp u).2 with e | b
  · rw [show (recalculateBill s inp u).1 = s from
      recalcWith_error_store false false false s inp u e hrb]
    exact hInv
  · obtain ⟨ex, t, hf, ht, hb, hstore⟩ :=
      recalcWith_ok_shape false false false s inp u b hrb
    show LedgerInv ((recalculateBillWith false false false s inp u).1)
    rw [hstore]
    obtain ⟨hbound, hnodup, hkeys⟩ := hInv
    have hexmem : ex ∈ s.bills := List.mem_of_find?_eq_some hf
    have hexid : ex.id = inp.billingReportId := by
      simpa using List.find?_some hf
    have hexlat : ex.isLatest = true := by
      unfold opValid at hop
      simp only [List.all_eq_true, Bool.or_eq_true, Bool.not_eq_eq_eq_not,
        Bool.not_true, beq_eq_false_iff_ne, ne_eq] at hop
      rcases hop ex hexmem with h | h
      · exact absurd hexid h
      · exact h
    have hbid : b.id = s.nextId := by rw [hb]; rfl
    have hbver : b.version = ex.version + 1 := by rw [hb]; rfl
    have hblat : b.isLatest = true := by rw [hb]; rfl
    have hbkey : billKey b = billKey ex := by rw [hb]; rfl
    have idInj := List.inj_on_of_nodup_map hnodup
    -- the existing logical-bill group
    obtain ⟨hperm, hone, hmax⟩ := hkeys ex hexmem
    have hexR : ex ∈ billsFor s.bills (billKey ex) :=
      mem_billsFor.mpr ⟨hexmem, rfl⟩
    have hexver : ex.version = (billsFor s.bills (billKey ex)).length :=
      hmax ex hexR hexlat
    have hfilterEx :
        (billsFor s.bills (billKey ex)).filter (fun r => r.isLatest) = [ex] := by
      obtain ⟨a, ha⟩ := List.length_eq_one.mp hone
      have hmem : ex ∈ (billsFor s.bills (billKey ex)).filter (fun r => r.isLatest) :=
        List.mem_filter.mpr ⟨hexR, hexlat⟩
      rw [ha] at hmem ⊢
      simp only [List.mem_singleton] at hmem
      rw [hmem]
    have hnotLatest : ∀ r ∈ billsFor s.bills (billKey ex), r ≠ ex →
        r.isLatest = false := by
      intro r hrR hne
      by_contra hlat
      rw [Bool.not_eq_false] at hlat
      have : r ∈ (billsFor s.bills (billKey ex)).filter (fun r => r.isLatest) :=
        List.mem_filter.mpr ⟨hrR, hlat⟩
      rw [hfilterEx] at this
      simp only [List.mem_singleton] at this
      exact hne this
    have hflipFalse : ∀ r ∈ billsFor s.bills (billKey ex),
        (flipOne ex.id r).isLatest = false := by
      intro r hrR
      by_cases hre : r = ex
      · subst hre; unfold flipOne; simp
      · have hrlat := hnotLatest r hrR hre
        unfold flipOne
        split
        · rfl
        · exact hrlat
    have hflipOther : ∀ r ∈ s.bills, r ≠ ex → flipOne ex.id r = r := by
      intro r hrmem hne
      unfold flipOne
      split
      · rename_i h
        exact absurd (idInj hrmem hexmem (by simpa using h)) hne
      · rfl
    -- groups of other logical bills are untouched
    have hgroupOther : ∀ k, k ≠ billKey ex →
        billsFor (flipLatest s.bills ex.id ++ [b]) k = billsFor s.bills k := by
      intro k hk
      rw [billsFor_append, billsFor_flip]
      have h1 : billsFor [b] k = [] := by
        apply List.filter_eq_nil_iff.mpr
        intro a ha
        simp only [List.mem_singleton] at ha
        subst ha
        simp only [decide_eq_true_eq]
        rw [hbkey]
        exact fun h => hk h.symm
      have h2 : (billsFor s.bills k).map (flipOne ex.id) = billsFor s.bills k := by
        have : ∀ r ∈ billsFor s.bills k, flipOne ex.id r = r := by
          intro r hrk
          obtain ⟨hrmem, hrkey⟩ := mem_billsFor.mp hrk
          refine hflipOther r hrmem (fun hre => hk ?_)
          rw [← hrkey, hre]
        calc (billsFor s.bills k).map (flipOne ex.id)
            = (billsFor s.bills k).map id := List.map_congr_left this
          _ = billsFor s.bills k := List.map_id _
      rw [h1, h2, List.append_nil]
    -- the recalculated group satisfies the invariant
    have hgroupEx : KeyInv (billsFor (flipLatest s.bills ex.id ++ [b]) (billKey ex)) := by
      rw [billsFor_append, billsFor_flip]
      have hbIn : billsFor [b] (billKey ex) = [b] := by
        unfold billsFor
        simp [hbkey]
      rw [hbIn]
      set R := billsFor s.bills (billKey ex) with hR
      refine ⟨?_, ?_, ?_⟩
      · -- versions are 1..n+1
        simp only [List.map_append, flip_map_version, List.map_cons, List.map_nil,
          List.length_append, List.length_map, List.length_cons, List.length_nil]
        have hconcat : List.range' 1 (R.length + 1) =
            List.range' 1 R.length ++ [R.length + 1] := by
          rw [List.range'_concat]
          simp [Nat.add_comm]
        rw [hconcat, hbver, hexver]
        exact hperm.append (List.Perm.refl _)
      · -- exactly one latest row
        rw [List.filter_append]
        have hmapNone : (R.map (flipOne ex.id)).filter (fun r => r.isLatest) = [] := by
          apply List.filter_eq_nil_iff.mpr
          intro a ha
          obtain ⟨r0, hr0, hr0a⟩ := List.mem_map.mp ha
          rw [← hr0a]
          simp [hflipFalse r0 hr0]
        rw [hmapNone, List.nil_append]
        simp [hblat]
      · -- the latest row carries the top version
        intro r' hr' hlat'
        rcases List.mem_append.mp hr' with hmapMem | hbMem
        · obtain ⟨r0, hr0, hr0r'⟩ := List.mem_map.mp hmapMem
          rw [← hr0r'] at hlat'
          rw [hflipFalse r0 hr0] at hlat'
          exact absurd hlat' (by simp)
        · have : r' = b := by simpa using hbMem
          subst this
          simp only [List.length_append, List.length_map, List.length_cons,
            List.length_nil]
          rw [hbver, hexver]
    refine ⟨?_, ?_, ?_⟩
    · intro r hrmem
      simp only [List.mem_append, List.mem_singleton] at hrmem
      rcases hrmem with hrflip | hrb'
      · obtain ⟨r0, hr0, hr0r⟩ := List.mem_map.mp hrflip
        rw [← hr0r, flipOne_id]
        exact Nat.lt_succ_of_lt (hbound r0 hr0)
      · rw [hrb', hbid]; exact Nat.lt_succ_self _
    · simp only [List.map_append, List.map_cons, List.map_nil]
      rw [flipLatest_map_id, List.nodup_append]
      refine ⟨hnodup, List.nodup_singleton _, ?_⟩
      intro x hx hxb
      simp only [List.mem_singleton] at hxb
      obtain ⟨r0, hr0, hr0x⟩ := List.mem_map.mp hx
      have := hbound r0 hr0
      rw [hbid] at hxb
      omega
    · intro r hrmem
      rcases List.mem_append.mp hrmem with hrflip | hrb'
      · obtain ⟨r0, hr0, hr0r⟩ := List.mem_map.mp hrflip
        by_cases hk : billKey r = billKey ex
        · rw [hk]; exact hgroupEx
        · rw [hgroupOther (billKey r) hk]
          have hkr0 : billKey r = billKey r0 := by rw [← hr0r, flipOne_key]
          rw [hkr0]
          exact hkeys r0 hr0
      · have : r = b := by simpa using hrb'
        subst this
        rw [hbkey]
        exact hgroupEx

-- ── Concrete fixtures ────────────────────────────────────────────────

def superUser : AuthUser := ⟨"U1", Role.SUPER_ADMIN, none, none⟩

/-- A version-1 bill: 100 units at rate 10 plus fixed 100, 5% tax. -/
def bill7 : BillingReport :=
  ⟨0, "M1", "T1", 0, 10, 100, 1000, 100, some 55, 1155, 1, true⟩

/-- One consumer, one meter on tariff T1 (rate 10, fixed 100), one
    100-unit reading inside the window `[0, 10]`, and `bill7` stored. -/
def store7 : Store :=
  { emptyStore with
    consumers := [⟨"C1", "S1", "B1"⟩]
    meters := [⟨"M1", "C1", "T1"⟩]
    tariffs := [⟨"T1", 10, 100⟩]
    readings := [⟨"M1", 5, 100, none, none⟩]
    bills := [bill7]
    nextId := 1 }

def recalcInput7 : RecalculateInput := ⟨0, "audit correction"⟩

/-- The version-2 row produced by recalculating `bill7` on `store7`. -/
def newBill7 : BillingReport :=
  ⟨1, "M1", "T1", 0, 10, 100, 1000, 100, some 55, 1155, 2, true⟩

theorem store7_find :
    store7.bills.find? (fun r => r.id == recalcInput7.billingReportId) = some bill7 := by
  simp [store7, bill7, recalcInput7, List.find?]

theorem store7_recalc_ok :
    (recalculateBillWith false false false store7 recalcInput7 superUser).2 =
      Except.ok newBill7 := by
  simp [recalculateBillWith, store7, bill7, newBill7, recalcInput7, superUser,
        emptyStore, findMeter, findConsumer, findTariff, assertMeterScope,
        billingReadings, sumConsumption, recalcNewReport, round2, jsRound,
        List.find?, List.filter]
  norm_num

theorem round2_zero : round2 0 = 0 := by
  unfold round2 jsRound
  norm_num

-- ── C1 ───────────────────────────────────────────────────────────────

/-- C1 (amended): after any sequence of `generateBill` and
    `recalculateBill` calls in which no logical bill is generated twice
    and every recalculation targets the current `isLatest` row, every
    stored logical bill `(meterId, billingStart, billingEnd)` has
    exactly one `isLatest = true` row, its version numbers are exactly
    `1, 2, …, n` with no gaps, and the latest row carries the highest
    version.  (The service itself enforces neither side condition; see
    the counterexample.) -/
theorem ledger_version_invariant (s : Store) (ops : List BillingOp)
    (hInv : LedgerInv s) (hval : validOps s ops = true) :
    LedgerInv (runOps s ops) := by
  induction ops generalizing s with
  | nil => exact hInv
  | cons op ops ih =>
    unfold validOps at hval
    rw [Bool.and_eq_true] at hval
    have hstep : LedgerInv (applyOp s op) := by
      cases op with
      | gen i u => exact LedgerInv_gen s i u hInv hval.1
      | recalc i u => exact LedgerInv_recalc s i u hInv hval.1
    exact ih (applyOp s op) hstep hval.2

/-- Store with the data of `store7` but no bill yet. -/
def store1 : Store :=
  { emptyStore with
    consumers := [⟨"C1", "S1", "B1"⟩]
    meters := [⟨"M1", "C1", "T1"⟩]
    tariffs := [⟨"T1", 10, 100⟩]
    readings := [⟨"M1", 5, 100, none, none⟩] }

def genInput1 : GenerateBillInput := ⟨"M1", 0, 10, none⟩

/-- C1 (counterexample): `generateBill` performs no uniqueness check on
    `(meterId, billingStart, billingEnd)`, so generating the same
    logical bill twice leaves two stored rows with `isLatest = true`
    (both version 1) — the claimed invariant fails for unrestricted
    operation sequences. -/
theorem ledger_version_invariant_cex :
    ((runOps store1 [BillingOp.gen genInput1 superUser,
        BillingOp.gen genInput1 superUser]).bills.filter
      (fun r => decide (billKey r = ("M1", 0, 10)) && r.isLatest)).length = 2 := by
  simp [runOps, applyOp, generateBill, genNewReport, findMeterOrThrow, meterInScope,
        buildScopeFilter, findConsumer, findTariff, billingReadings, sumConsumption,
        store1, genInput1, superUser, emptyStore, billKey,
        List.find?, List.filter]

/-- C1 (witness trace): generate then recalculate on a fresh store. -/
theorem ledger_version_invariant_witness :
    validOps store1 [BillingOp.gen genInput1 superUser,
        BillingOp.recalc ⟨0, "fix"⟩ superUser] = true ∧
    LedgerInv (runOps store1 [BillingOp.gen genInput1 superUser,
        BillingOp.recalc ⟨0, "fix"⟩ superUser]) := by
  have hval : validOps store1 [BillingOp.gen genInput1 superUser,
      BillingOp.recalc ⟨0, "fix"⟩ superUser] = true := by
    simp [validOps, opValid, applyOp, generateBill, genNewReport, findMeterOrThrow,
          meterInScope, buildScopeFilter, findConsumer, findTariff, billingReadings,
          sumConsumption, store1, genInput1, superUser, emptyStore, billKey,
          List.find?, List.filter, List.all]
  have hinv : LedgerInv store1 := by
    simp [LedgerInv, store1, emptyStore]
  exact ⟨hval, ledger_version_invariant store1 _ hinv hval⟩

-- ── C3 ───────────────────────────────────────────────────────────────

/-- C3: the three transaction sub-steps of `recalculateBill` — flip the
    old row's `isLatest`, insert the `version + 1` row over the same
    billing period, append the `RecalculationLog` row referencing the
    new row's id with the previous/new versions and the caller's reason
    — commit as one unit: whatever check or storage step fails (the
    `f1 f2 f3` flags inject a failure before each write), an error
    leaves the store exactly as it was, and on success all three
    changes are present and nothing else changed. -/
theorem recalc_transaction_atomicity (f1 f2 f3 : Bool) (s : Store)
    (inp : RecalculateInput) (u : AuthUser) :
    (∀ e, (recalculateBillWith f1 f2 f3 s inp u).2 = Except.error e →
       (recalculateBillWith f1 f2 f3 s inp u).1 = s) ∧
    (∀ b ex, s.bills.find? (fun r => r.id == inp.billingReportId) = some ex →
       (recalculateBillWith f1 f2 f3 s inp u).2 = Except.ok b →
       (recalculateBillWith f1 f2 f3 s inp u).1 =
         { s with
             bills := flipLatest s.bills ex.id ++ [b]
             recalcLogs := s.recalcLogs ++
               [⟨b.id, inp.reason, u.id, ex.version, ex.version + 1⟩]
             nextId := s.nextId + 1 } ∧
       b.version = ex.version + 1 ∧ b.isLatest = true ∧
       b.meterId = ex.meterId ∧ b.billingStart = ex.billingStart ∧
       b.billingEnd = ex.billingEnd ∧ b.tariffId = ex.tariffId) := by
  constructor
  · exact fun e he => recalcWith_error_store f1 f2 f3 s inp u e he
  · intro b ex hf hok
    obtain ⟨ex', t, hf', ht, hb, hstore⟩ := recalcWith_ok_shape f1 f2 f3 s inp u b hok
    rw [hf] at hf'
    have hex : ex = ex' := by injection hf'
    subst hex
    refine ⟨hstore, ?_, ?_, ?_, ?_, ?_, ?_⟩ <;> rw [hb] <;> rfl

/-- C3 (witness): the success case on `store7`. -/
theorem recalc_transaction_atomicity_witness :
    (recalculateBillWith false false false store7 recalcInput7 superUser).1 =
      { store7 with
          bills := flipLatest store7.bills bill7.id ++ [newBill7]
          recalcLogs := store7.recalcLogs ++
            [⟨newBill7.id, recalcInput7.reason, superUser.id, bill7.version,
              bill7.version + 1⟩]
          nextId := store7.nextId + 1 } ∧
    newBill7.version = bill7.version + 1 ∧ newBill7.isLatest = true ∧
    newBill7.meterId = bill7.meterId ∧ newBill7.billingStart = bill7.billingStart ∧
    newBill7.billingEnd = bill7.billingEnd ∧ newBill7.tariffId = bill7.tariffId :=
  (recalc_transaction_atomicity false false false store7 recalcInput7 superUser).2
    newBill7 bill7 store7_find store7_recalc_ok

-- ── C7 ───────────────────────────────────────────────────────────────

/-- C7: on every successful recalculation the new tax amount equals
    `round(subtotal_new × (taxAmount_old / (energyCharge_old +
    fixedCharge_old)))` whenever the original `taxAmount` was set, and
    `0` when it was not set (the code's truthiness test routes a stored
    `taxAmount = 0` through the `0` branch, which agrees with the
    formula). -/
theorem recalc_preserves_tax_ratio (s : Store) (inp : RecalculateInput)
    (u : AuthUser) (ex b : BillingReport)
    (hf : s.bills.find? (fun r => r.id == inp.billingReportId) = some ex)
    (hok : (recalculateBill s inp u).2 = Except.ok b) :
    (∀ tv : ℚ, ex.taxAmount = some tv →
       b.taxAmount = some (round2 ((b.energyCharge + b.fixedCharge) *
         (tv / (ex.energyCharge + ex.fixedCharge))))) ∧
    (ex.taxAmount = none → b.taxAmount = some 0) := by
  obtain ⟨ex', t, hf', ht, hb, hstore⟩ :=
    recalcWith_ok_shape false false false s inp u b hok
  rw [hf] at hf'
  have hex : ex = ex' := by injection hf'
  subst hex
  constructor
  · intro tv htv
    by_cases h0 : tv = 0
    · subst h0
      rw [hb]
      simp [recalcNewReport, htv, round2_zero]
    · rw [hb]
      simp [recalcNewReport, htv, h0]
  · intro htv
    rw [hb]
    simp [recalcNewReport, htv]

/-- C7 (witness): the spec's example — original bill with
    `energyCharge = 1000`, `fixedCharge = 100`, `taxAmount = 55`;
    recalculating with unchanged tariff and readings keeps
    `taxAmount = 55` (ratio 5%). -/
theorem recalc_preserves_tax_ratio_witness :
    (recalculateBill store7 recalcInput7 superUser).2 = Except.ok newBill7 ∧
    newBill7.taxAmount = some 55 := by
  refine ⟨store7_recalc_ok, ?_⟩
  have h := (recalc_preserves_tax_ratio store7 recalcInput7 superUser bill7 newBill7
    store7_find store7_recalc_ok).1 55 (by simp [bill7])
  rw [h]
  norm_num [newBill7, bill7, round2, jsRound]

-- ── C4 ───────────────────────────────────────────────────────────────

/-- Original bill computed under tariff T1 (rate 10). -/
def bill4 : BillingReport := ⟨0, "M1", "T1", 0, 10, 10, 100, 0, none, 100, 1, true⟩

def tariff4 : Tariff := ⟨"T1", 10, 0⟩

/-- The meter has since been re-linked to tariff T2 (rate 5), but the
    stored bill still references T1. -/
def store4 : Store :=
  { emptyStore with
    consumers := [⟨"C1", "S1", "B1"⟩]
    meters := [⟨"M1", "C1", "T2"⟩]
    tariffs := [tariff4, ⟨"T2", 5, 0⟩]
    readings := [⟨"M1", 5, 10, none, none⟩]
    bills := [bill4]
    nextId := 1 }

def recalcInput4 : RecalculateInput := ⟨0, "tariff check"⟩

/-- Recalculating `bill4` on `store4` still charges at T1's rate 10. -/
def newBill4 : BillingReport := ⟨1, "M1", "T1", 0, 10, 10, 100, 0, some 0, 100, 2, true⟩

theorem store4_recalc_ok :
    (recalculateBillWith false false false store4 recalcInput4 superUser).2 =
      Except.ok newBill4 := by
  simp [recalculateBillWith, store4, bill4, newBill4, tariff4, recalcInput4, superUser,
        emptyStore, findMeter, findConsumer, findTariff, assertMeterScope,
        billingReadings, sumConsumption, recalcNewReport, round2, jsRound,
        List.find?, List.filter]
  norm_num

/-- C4 (counterexample): on `store4` the meter's currently linked
    tariff is T2 with `unitRate = 5`, so the claim predicts
    `energyCharge = round(10 × 5) = 50` for the new version; the code
    instead re-reads the tariff referenced by the original bill (T1,
    rate 10) and produces `energyCharge = 100` with `tariffId = "T1"`. -/
theorem recalc_current_tariff_cex :
    (recalculateBill store4 recalcInput4 superUser).2 = Except.ok newBill4 ∧
    findMeter store4 "M1" = some ⟨"M1", "C1", "T2"⟩ ∧
    findTariff store4 "T2" = some ⟨"T2", 5, 0⟩ ∧
    newBill4.tariffId = "T1" ∧
    newBill4.energyCharge = 100 ∧
    round2 (newBill4.totalUnits * 5) = 50 ∧
    ¬ ((100 : ℚ) = 50) := by
  refine ⟨store4_recalc_ok, ?_, ?_, rfl, rfl, ?_, by norm_num⟩
  · simp [findMeter, store4, emptyStore, List.find?]
  · simp [findTariff, store4, tariff4, emptyStore, List.find?]
  · norm_num [newBill4, round2, jsRound]

/-- C4 (amended): every recalculation recomputes `energyCharge` and
    `fixedCharge` from the tariff row referenced by the ORIGINAL bill
    (`existing.tariffId`), re-read from the store at recalculation
    time; the meter's currently linked tariff is not consulted, and the
    new version keeps the original bill's `tariffId`. -/
theorem recalc_uses_original_bill_tariff (s : Store) (inp : RecalculateInput)
    (u : AuthUser) (ex : BillingReport) (t : Tariff) (b : BillingReport)
    (hf : s.bills.find? (fun r => r.id == inp.billingReportId) = some ex)
    (ht : findTariff s ex.tariffId = some t)
    (hok : (recalculateBill s inp u).2 = Except.ok b) :
    b.tariffId = ex.tariffId ∧
    b.energyCharge = round2 (sumConsumption
      (billingReadings s ex.meterId ex.billingStart ex.billingEnd) * t.unitRate) ∧
    b.fixedCharge = round2 t.fixedCharge := by
  obtain ⟨ex', t', hf', ht', hb, hstore⟩ :=
    recalcWith_ok_shape false false false s inp u b hok
  rw [hf] at hf'
  have hex : ex = ex' := by injection hf'
  subst hex
  rw [ht] at ht'
  have ht2 : t = t' := by injection ht'
  subst ht2
  rw [hb]
  exact ⟨rfl, rfl, rfl⟩

/-- C4 (witness): the amended statement evaluated on `store4`. -/
theorem recalc_uses_original_bill_tariff_witness :
    newBill4.tariffId = bill4.tariffId ∧
    newBill4.energyCharge = round2 (sumConsumption
      (billingReadings store4 bill4.meterId bill4.billingStart bill4.billingEnd) *
        tariff4.unitRate) ∧
    newBill4.fixedCharge = round2 tariff4.fixedCharge :=
  recalc_uses_original_bill_tariff store4 recalcInput4 superUser bill4 tariff4 newBill4
    (by simp [store4, bill4, recalcInput4, List.find?])
    (by simp [findTariff, store4, bill4, tariff4, emptyStore, List.find?])
    store4_recalc_ok

-- ── C5 ───────────────────────────────────────────────────────────────

def stateAdmin1 : AuthUser := ⟨"A1", Role.STATE_ADMIN, some "S1", none⟩

def bill5 : BillingReport := ⟨0, "M2", "T1", 0, 10, 100, 1000, 100, none, 1100, 1, true⟩

/-- The bill's meter belongs to a consumer in state S2, outside
    `stateAdmin1`'s state S1. -/
def store5 : Store :=
  { emptyStore with
    consumers := [⟨"C2", "S2", "B2"⟩]
    meters := [⟨"M2", "C2", "T1"⟩]
    tariffs := [⟨"T1", 10, 100⟩]
    readings := [⟨"M2", 5, 100, none, none⟩]
    bills := [bill5]
    nextId := 1 }

/-- C5 (counterexample): recalculating an existing but out-of-scope
    bill does NOT fail with a not-found error — `assertMeterScope`
    throws `BadRequestError("Meter does not belong to your state")`,
    a validation error distinguishable from not-found. -/
theorem recalc_out_of_scope_error_cex :
    (recalculateBill store5 ⟨0, "scope probe"⟩ stateAdmin1).2 =
      Except.error (SvcError.badRequest "Meter does not belong to your state") ∧
    resultIsNotFound (recalculateBill store5 ⟨0, "scope probe"⟩ stateAdmin1).2 = false := by
  have h : (recalculateBill store5 ⟨0, "scope probe"⟩ stateAdmin1).2 =
      Except.error (SvcError.badRequest "Meter does not belong to your state") := by
    simp [recalculateBill, recalculateBillWith, store5, bill5, stateAdmin1, emptyStore,
          findMeter, findConsumer, findTariff, assertMeterScope, List.find?]
  exact ⟨h, by rw [h]; rfl⟩

/-- C5 (amended): an absent billing report makes `recalculateBill` fail
    with not-found, and scoped lookups (`getBillById`) fold both absent
    and out-of-scope rows into the same not-found error; but
    `recalculateBill` itself loads the row unscoped and surfaces an
    out-of-scope record as a BadRequest validation error from
    `assertMeterScope`, distinguishable from not-found. -/
theorem scope_error_kinds :
    (∀ s inp u, (∀ r ∈ s.bills, r.id ≠ inp.billingReportId) →
       (recalculateBill s inp u).2 =
         Except.error (SvcError.notFound "BillingReport"
           (toString inp.billingReportId))) ∧
    (∀ s bid u, (∀ r ∈ s.bills, r.id = bid → billInScope s u r = false) →
       getBillById s bid u =
         Except.error (SvcError.notFound "BillingReport" (toString bid))) ∧
    (∀ s inp u ex m c st,
       s.bills.find? (fun r => r.id == inp.billingReportId) = some ex →
       findMeter s ex.meterId = some m →
       findConsumer s m.consumerId = some c →
       u.role = Role.STATE_ADMIN → u.stateId = some st → st ≠ c.stateId →
       (recalculateBill s inp u).2 =
         Except.error (SvcError.badRequest "Meter does not belong to your state")) := by
  refine ⟨?_, ?_, ?_⟩
  · intro s inp u h
    have hfn : s.bills.find? (fun r => r.id == inp.billingReportId) = none :=
      List.find?_eq_none.mpr (fun r hr => by simp [h r hr])
    unfold recalculateBill recalculateBillWith
    simp [hfn]
  · intro s bid u h
    have hfn : s.bills.find? (fun r => r.id == bid && billInScope s u r) = none := by
      apply List.find?_eq_none.mpr
      intro r hr
      by_cases hid : r.id = bid
      · simp [hid, h r hr hid]
      · simp [hid]
    unfold getBillById
    simp [hfn]
  · intro s inp u ex m c st hf hm hc hrole hstate hne
    have hsc : assertMeterScope u c =
        some (SvcError.badRequest "Meter does not belong to your state") := by
      unfold assertMeterScope
      rw [hrole, hstate]
      simp [hne]
    unfold recalculateBill recalculateBillWith
    simp [hf, hm, hc, hsc]

/-- C5 (witness): the amended error kinds evaluated on `store5`. -/
theorem scope_error_kinds_witness :
    (recalculateBill store5 ⟨99, "missing"⟩ stateAdmin1).2 =
      Except.error (SvcError.notFound "BillingReport" (toString (99 : Nat))) ∧
    getBillById store5 0 stateAdmin1 =
      Except.error (SvcError.notFound "BillingReport" (toString (0 : Nat))) ∧
    (recalculateBill store5 ⟨0, "scope probe"⟩ stateAdmin1).2 =
      Except.error (SvcError.badRequest "Meter does not belong to your state") := by
  refine ⟨scope_error_kinds.1 store5 ⟨99, "missing"⟩ stateAdmin1 ?_,
          scope_error_kinds.2.1 store5 0 stateAdmin1 ?_,
          scope_error_kinds.2.2 store5 ⟨0, "scope probe"⟩ stateAdmin1 bill5
            ⟨"M2", "C2", "T1"⟩ ⟨"C2", "S2", "B2"⟩ "S1" ?_ ?_ ?_ rfl rfl (by simp)⟩
  · intro r hr
    simp [store5, bill5, emptyStore] at hr
    simp [hr]
  · intro r hr
    simp [store5, bill5, emptyStore] at hr
    intro _
    simp [hr, billInScope, buildScopeFilter, stateAdmin1, findMeter, findConsumer,
          consumerMatches, store5, bill5, emptyStore, List.find?]
  · simp [store5, bill5, List.find?]
  · simp [findMeter, store5, bill5, emptyStore, List.find?]
  · simp [findConsumer, store5, bill5, emptyStore, List.find?]

-- ── C6 ───────────────────────────────────────────────────────────────

/-- `store7` with all meter readings removed: the billing window of
    `bill7` now contains zero readings. -/
def store6 : Store := { store7 with readings := [] }

/-- Recalculating `bill7` with zero readings still succeeds: the new
    version carries zero consumption and the tax ratio applied to the
    remaining fixed charge. -/
def newBill6 : BillingReport := ⟨1, "M1", "T1", 0, 10, 0, 0, 100, some 5, 105, 2, true⟩

theorem store6_recalc_ok :
    (recalculateBillWith false false false store6 recalcInput7 superUser).2 =
      Except.ok newBill6 := by
  simp [recalculateBillWith, store6, store7, bill7, newBill6, recalcInput7, superUser,
        emptyStore, findMeter, findConsumer, findTariff, assertMeterScope,
        billingReadings, sumConsumption, recalcNewReport, round2, jsRound,
        List.find?, List.filter]
  norm_num

/-- C6 (counterexample): the billing window contains zero readings, yet
    `recalculateBill` succeeds and persists a new version (with
    `totalUnits = 0`) instead of failing with a validation error. -/
theorem empty_window_recalc_cex :
    billingReadings store6 "M1" 0 10 = [] ∧
    (recalculateBill store6 recalcInput7 superUser).2 = Except.ok newBill6 ∧
    (recalculateBill store6 recalcInput7 superUser).1.bills.length =
      store6.bills.length + 1 := by
  refine ⟨by simp [billingReadings, store6, store7, emptyStore], store6_recalc_ok, ?_⟩
  obtain ⟨ex, t, hf, ht, hb, hstore⟩ :=
    recalcWith_ok_shape false false false store6 recalcInput7 superUser newBill6
      store6_recalc_ok
  show (recalculateBillWith false false false store6 recalcInput7 superUser).1.bills.length
      = store6.bills.length + 1
  rw [hstore]
  simp [flipLatest]

/-- C6 (amended): `generateBill` rejects a window with zero readings
    with the validation error, but `recalculateBill` performs no such
    check: with zero readings in the window it succeeds and persists a
    new version whose `totalUnits` and `energyCharge` are 0. -/
theorem empty_window_checks :
    (∀ s i u m, findMeterOrThrow s i.meterId u = Except.ok m →
       ¬ i.billingStart ≥ i.billingEnd →
       billingReadings s m.id i.billingStart i.billingEnd = [] →
       generateBill s i u = (s, Except.error (SvcError.badRequest
         "No meter readings found for the specified billing period"))) ∧
    (∀ s inp u ex b,
       s.bills.find? (fun r => r.id == inp.billingReportId) = some ex →
       billingReadings s ex.meterId ex.billingStart ex.billingEnd = [] →
       (recalculateBill s inp u).2 = Except.ok b →
       b.totalUnits = 0 ∧ b.energyCharge = 0) := by
  constructor
  · intro s i u m hm hd hr
    unfold generateBill
    simp [hd, hm, hr]
  · intro s inp u ex b hf hr hok
    obtain ⟨ex', t, hf', ht, hb, hstore⟩ :=
      recalcWith_ok_shape false false false s inp u b hok
    rw [hf] at hf'
    have hex : ex = ex' := by injection hf'
    subst hex
    rw [hb]
    unfold recalcNewReport
    rw [hr]
    simp [sumConsumption, round2_zero]

/-- C6 (witness): both halves evaluated on the readings-free store. -/
theorem empty_window_checks_witness :
    generateBill store6 genInput1 superUser =
      (store6, Except.error (SvcError.badRequest
        "No meter readings found for the specified billing period")) ∧
    newBill6.totalUnits = 0 ∧ newBill6.energyCharge = 0 := by
  refine ⟨empty_window_checks.1 store6 genInput1 superUser ⟨"M1", "C1", "T1"⟩
      ?_ (by norm_num [genInput1]) ?_, ?_⟩
  · simp [findMeterOrThrow, meterInScope, buildScopeFilter, superUser, store6, store7,
          emptyStore, genInput1, List.find?]
  · simp [billingReadings, store6, store7, emptyStore, genInput1]
  · exact empty_window_checks.2 store6 recalcInput7 superUser bill7 newBill6
      (by simp [store6, store7, bill7, recalcInput7, List.find?])
      (by simp [billingReadings, store6, store7, bill7, emptyStore])
      store6_recalc_ok

-- ── C2 ───────────────────────────────────────────────────────────────

def noScopeStateAdmin : AuthUser := ⟨"A2", Role.STATE_ADMIN, none, none⟩

def noScopeBoardAdmin : AuthUser := ⟨"A3", Role.BOARD_ADMIN, none, none⟩

/-- C2 (code evaluated at the failing input): a STATE_ADMIN whose
    `stateId` is not configured (and a BOARD_ADMIN without `boardId`)
    falls through `buildScopeFilter`'s trailing SUPPORT_AGENT/AUDITOR
    fallback — the branch the code's own comment reserves for those
    roles — and, with no id set at all, receives the empty filter that
    matches EVERYTHING.  Scoped queries then return unscoped results:
    on `store5` the unconfigured STATE_ADMIN retrieves the state-S2
    bill through `getBillById`, and the scoped meter filter keeps every
    meter, instead of the claimed match-nothing predicate / empty
    result. -/
theorem scope_fail_open_unconfigured_admin :
    buildScopeFilter noScopeStateAdmin = ScopeFilter.noFilter ∧
    buildScopeFilter noScopeBoardAdmin = ScopeFilter.noFilter ∧
    getBillById store5 0 noScopeStateAdmin = Except.ok bill5 ∧
    store5.meters.filter (fun m => meterInScope store5 noScopeStateAdmin m) =
      store5.meters := by
  refine ⟨rfl, rfl, ?_, ?_⟩
  · simp [getBillById, billInScope, buildScopeFilter, noScopeStateAdmin, store5,
          bill5, emptyStore, List.find?]
  · simp [meterInScope, buildScopeFilter, noScopeStateAdmin, store5, emptyStore,
          List.filter]

-- ── C8 ───────────────────────────────────────────────────────────────

/-- Meter on a rate-1, no-fixed-charge tariff with a single 1-unit
    reading: the subtotal of the window `[0, 10]` is exactly 1. -/
def store8 : Store :=
  { emptyStore with
    consumers := [⟨"C1", "S1", "B1"⟩]
    meters := [⟨"M1", "C1", "T1"⟩]
    tariffs := [⟨"T1", 1, 0⟩]
    readings := [⟨"M1", 5, 1, none, none⟩] }

/-- A (negative) tax rate of -0.005 puts the tax amount exactly on a
    half-cent boundary: `subtotal × taxRate = -0.005`. -/
def genInput8 : GenerateBillInput := ⟨"M1", 0, 10, some (-(1/200))⟩

def bill8 : BillingReport := ⟨0, "M1", "T1", 0, 10, 1, 1, 0, some 0, 1, 1, true⟩

theorem store8_gen_ok :
    (generateBill store8 genInput8 superUser).2 = Except.ok bill8 := by
  simp [generateBill, genNewReport, findMeterOrThrow, meterInScope, buildScopeFilter,
        findConsumer, findTariff, billingReadings, sumConsumption, store8, genInput8,
        bill8, superUser, emptyStore, round2, jsRound, List.find?, List.filter]
  norm_num

/-- C8 (counterexample): the persisted `taxAmount` for a half-cent
    negative value `-0.005` is `0` — JS `Math.round` rounds halves
    toward +∞ — whereas round-half-away-from-zero yields `-0.01`.  The
    monetary fields are therefore NOT rounded with
    round-half-away-from-zero as claimed. -/
theorem round_half_up_cex :
    (generateBill store8 genInput8 superUser).2 = Except.ok bill8 ∧
    bill8.taxAmount = some (round2 ((bill8.energyCharge + bill8.fixedCharge) * (-(1/200)))) ∧
    round2 ((bill8.energyCharge + bill8.fixedCharge) * (-(1/200))) = 0 ∧
    roundHalfAway2 ((bill8.energyCharge + bill8.fixedCharge) * (-(1/200))) = -(1/100) ∧
    ¬ ((0 : ℚ) = -(1/100)) := by
  refine ⟨store8_gen_ok, ?_, ?_, ?_, by norm_num⟩
  · norm_num [bill8, round2, jsRound]
  · norm_num [bill8, round2, jsRound]
  · norm_num [bill8, roundHalfAway2, roundHalfAway]

/-- C8 (amended): `taxRate` defaults to 0 when omitted, and the
    persisted `totalAmount` equals
    `round(energyCharge + fixedCharge + taxAmount)` under the code's
    rounding; but that rounding is JS `Math.round` — half UP, toward
    +∞ — which agrees with the claimed round-half-away-from-zero only
    on non-negative inputs (all three statements below). -/
theorem bill_money_semantics :
    (∀ (s : Store) (i : GenerateBillInput) (u : AuthUser),
       generateBill s { i with taxRate := none } u =
       generateBill s { i with taxRate := some 0 } u) ∧
    (∀ (s : Store) (i : GenerateBillInput) (u : AuthUser) (b : BillingReport),
       (generateBill s i u).2 = Except.ok b →
       b.totalAmount = round2 (b.energyCharge + b.fixedCharge + b.taxAmount.getD 0)) ∧
    (∀ x : ℚ, 0 ≤ x → round2 x = roundHalfAway2 x) := by
  refine ⟨?_, ?_, ?_⟩
  · intro s i u
    simp [generateBill, genNewReport]
  · intro s i u b hok
    obtain ⟨m, t, hm, ht, hr, hb, hstore⟩ := generateBill_ok_shape s i u b hok
    rw [hb]
    simp [genNewReport]
  · intro x hx
    have h100 : (0 : ℚ) ≤ x * 100 := mul_nonneg hx (by norm_num)
    unfold round2 roundHalfAway2 jsRound roundHalfAway
    rw [if_pos h100]

/-- C8 (witness): the amended semantics evaluated concretely. -/
theorem bill_money_semantics_witness :
    generateBill store8 ⟨"M1", 0, 10, none⟩ superUser =
      generateBill store8 ⟨"M1", 0, 10, some 0⟩ superUser ∧
    bill8.totalAmount =
      round2 (bill8.energyCharge + bill8.fixedCharge + bill8.taxAmount.getD 0) ∧
    (0 : ℚ) ≤ 2 ∧ round2 2 = roundHalfAway2 2 :=
  ⟨bill_money_semantics.1 store8 ⟨"M1", 0, 10, none⟩ superUser,
   bill_money_semantics.2.1 store8 genInput8 superUser bill8 store8_gen_ok,
   by norm_num,
   bill_money_semantics.2.2 2 (by norm_num)⟩

-- ── C10 ──────────────────────────────────────────────────────────────

/-- C10: the only precondition of `recordBillView` is that the billing
    report exists; the viewing `consumerId` is stored verbatim with no
    ownership or scope check tying the bill's meter to that consumer,
    and on success exactly one `CustomerBillView` row is appended. -/
theorem recordBillView_no_ownership (s : Store) (billId : Nat)
    (consumerId : String) (now : Int) (b : BillingReport)
    (hfind : s.bills.find? (fun r => r.id == billId) = some b) :
    (recordBillView s billId consumerId now).2 =
      Except.ok ⟨billId, consumerId, now⟩ ∧
    (recordBillView s billId consumerId now).1 =
      { s with billViews := s.billViews ++ [⟨billId, consumerId, now⟩] } := by
  unfold recordBillView
  rw [hfind]
  exact ⟨rfl, rfl⟩

/-- C10 (witness): `bill7`'s meter belongs to consumer C1, yet the
    unrelated consumer C9 records a view successfully. -/
theorem recordBillView_no_ownership_witness :
    (findMeter store7 bill7.meterId).map (fun m => m.consumerId) = some "C1" ∧
    ¬ ("C9" = "C1") ∧
    (recordBillView store7 0 "C9" 42).2 = Except.ok ⟨0, "C9", 42⟩ ∧
    (recordBillView store7 0 "C9" 42).1 =
      { store7 with billViews := store7.billViews ++ [⟨0, "C9", 42⟩] } := by
  have h := recordBillView_no_ownership store7 0 "C9" 42 bill7
    (by simp [store7, bill7, List.find?])
  refine ⟨?_, by simp, h.1, h.2⟩
  simp [findMeter, store7, bill7, emptyStore, List.find?]

-- ── C9 ───────────────────────────────────────────────────────────────

theorem runSweep_results_shape (failP : DataRetentionPolicy → Bool) (now : Int) :
    ∀ (ps : List DataRetentionPolicy) (s0 : Store),
      ((runSweep failP now s0 ps).2).map
          (fun res => (res.policyId, res.entityType, res.retentionDays, res.cutoffDate))
        = ps.map (fun p => (p.id, p.entityType, p.retentionDays, now - p.retentionDays)) := by
  intro ps
  induction ps with
  | nil => intro s0; rfl
  | cons p ps ih =>
    intro s0
    rw [runSweep]
    simp only [List.map_cons]
    rw [ih]

theorem runSweep_fail_zero (failP : DataRetentionPolicy → Bool) (now : Int) :
    ∀ (ps : List DataRetentionPolicy) (s0 : Store)
      (pr : CleanupResult × DataRetentionPolicy),
      pr ∈ ((runSweep failP now s0 ps).2.zip ps) →
      failP pr.2 = true → pr.1.deletedCount = 0 := by
  intro ps
  induction ps with
  | nil =>
    intro s0 pr h
    rw [runSweep] at h
    simp at h
  | cons p ps ih =>
    intro s0 pr hmem hfail
    rw [runSweep] at hmem
    simp only [List.zip_cons_cons, List.mem_cons] at hmem
    rcases hmem with h | h
    · subst h
      simp only at hfail
      simp [hfail]
    · exact ih _ pr h hfail

/-- C9: the retention sweep visits every stored policy in order,
    reporting its id, entity type, retention days and cutoff
    `now − retentionDays`; a policy whose deletion throws is caught and
    reported with `deletedCount = 0` while the remaining policies are
    still processed (`failP` injects such failures); and each
    successful per-policy deletion removes exactly the rows of that
    policy's entity type that match the policy's scope and whose
    timestamp column is STRICTLY before the cutoff — rows at or after
    the cutoff are retained — leaving every other table untouched and
    reporting the number of removed rows. -/
theorem retention_cleanup_spec :
    (∀ (failP : DataRetentionPolicy → Bool) (now : Int) (s : Store),
       ((runRetentionCleanup failP now s).2).map
           (fun res => (res.policyId, res.entityType, res.retentionDays, res.cutoffDate))
         = s.policies.map
             (fun p => (p.id, p.entityType, p.retentionDays, now - p.retentionDays))) ∧
    (∀ (failP : DataRetentionPolicy → Bool) (now : Int) (s : Store)
       (pr : CleanupResult × DataRetentionPolicy),
       pr ∈ ((runRetentionCleanup failP now s).2.zip s.policies) →
       failP pr.2 = true → pr.1.deletedCount = 0) ∧
    (∀ (s : Store) (cutoff : Int) (sid bid : Option String),
       (∀ r, r ∈ (deleteOldRecords s RetentionEntityType.MeterReading cutoff sid bid).1.readings
          ↔ r ∈ s.readings ∧
            ¬(readingScopeOk s sid bid r = true ∧ r.timestamp < cutoff)) ∧
       (deleteOldRecords s RetentionEntityType.MeterReading cutoff sid bid).2 +
         (deleteOldRecords s RetentionEntityType.MeterReading cutoff sid bid).1.readings.length
         = s.readings.length ∧
       (deleteOldRecords s RetentionEntityType.MeterReading cutoff sid bid).1 =
         { s with readings :=
             (deleteOldRecords s RetentionEntityType.MeterReading cutoff sid bid).1.readings }) ∧
    (∀ (s : Store) (cutoff : Int) (sid bid : Option String),
       (∀ a, a ∈ (deleteOldRecords s RetentionEntityType.AuditLog cutoff sid bid).1.auditLogs
          ↔ a ∈ s.auditLogs ∧
            ¬(auditScopeOk s sid bid a = true ∧ a.createdAt < cutoff)) ∧
       (deleteOldRecords s RetentionEntityType.AuditLog cutoff sid bid).2 +
         (deleteOldRecords s RetentionEntityType.AuditLog cutoff sid bid).1.auditLogs.length
         = s.auditLogs.length ∧
       (deleteOldRecords s RetentionEntityType.AuditLog cutoff sid bid).1 =
         { s with auditLogs :=
             (deleteOldRecords s RetentionEntityType.AuditLog cutoff sid bid).1.auditLogs }) ∧
    (∀ (s : Store) (cutoff : Int) (sid bid : Option String),
       (∀ f, f ∈ (deleteOldRecords s RetentionEntityType.GeneratedReportFile cutoff sid bid).1.reportFiles
          ↔ f ∈ s.reportFiles ∧
            ¬(fileScopeOk sid bid f = true ∧ f.createdAt < cutoff)) ∧
       (deleteOldRecords s RetentionEntityType.GeneratedReportFile cutoff sid bid).2 +
         (deleteOldRecords s RetentionEntityType.GeneratedReportFile cutoff sid bid).1.reportFiles.length
         = s.reportFiles.length ∧
       (deleteOldRecords s RetentionEntityType.GeneratedReportFile cutoff sid bid).1 =
         { s with reportFiles :=
             (deleteOldRecords s RetentionEntityType.GeneratedReportFile cutoff sid bid).1.reportFiles }) ∧
    (∀ (s : Store) (cutoff : Int) (sid bid : Option String),
       (∀ q, q ∈ (deleteOldRecords s RetentionEntityType.CustomerQuery cutoff sid bid).1.queries
          ↔ q ∈ s.queries ∧
            ¬(queryScopeOk s sid bid q = true ∧ q.createdAt < cutoff)) ∧
       (deleteOldRecords s RetentionEntityType.CustomerQuery cutoff sid bid).2 +
         (deleteOldRecords s RetentionEntityType.CustomerQuery cutoff sid bid).1.queries.length
         = s.queries.length ∧
       (deleteOldRecords s RetentionEntityType.CustomerQuery cutoff sid bid).1 =
         { s with queries :=
             (deleteOldRecords s RetentionEntityType.CustomerQuery cutoff sid bid).1.queries }) := by
  refine ⟨?_, ?_, ?_, ?_, ?_, ?_⟩
  · intro failP now s
    exact runSweep_results_shape failP now s.policies s
  · intro failP now s pr hmem hfail
    exact runSweep_fail_zero failP now s.policies s pr hmem hfail
  · intro s cutoff sid bid
    refine ⟨?_, ?_, rfl⟩
    · intro r
      cases hb : readingScopeOk s sid bid r <;>
        simp [deleteOldRecords, List.mem_filter, hb]
    · simp only [deleteOldRecords]
      rw [Nat.add_comm]
      exact (Nat.add_comm _ _).trans (length_filter_not_add _ _) |>.symm ▸ rfl
  · intro s cutoff sid bid
    refine ⟨?_, ?_, rfl⟩
    · intro a
      cases hb : auditScopeOk s sid bid a <;>
        simp [deleteOldRecords, List.mem_filter, hb]
    · simp only [deleteOldRecords]
      rw [Nat.add_comm]
      exact (Nat.add_comm _ _).trans (length_filter_not_add _ _) |>.symm ▸ rfl
  · intro s cutoff sid bid
    refine ⟨?_, ?_, rfl⟩
    · intro f
      cases hb : fileScopeOk sid bid f <;>
        simp [deleteOldRecords, List.mem_filter, hb]
    · simp only [deleteOldRecords]
      rw [Nat.add_comm]
      exact (Nat.add_comm _ _).trans (length_filter_not_add _ _) |>.symm ▸ rfl
  · intro s cutoff sid bid
    refine ⟨?_, ?_, rfl⟩
    · intro q
      cases hb : queryScopeOk s sid bid q <;>
        simp [deleteOldRecords, List.mem_filter, hb]
    · simp only [deleteOldRecords]
      rw [Nat.add_comm]
      exact (Nat.add_comm _ _).trans (length_filter_not_add _ _) |>.symm ▸ rfl

def policy9a : DataRetentionPolicy :=
  ⟨"P1", none, none, RetentionEntityType.MeterReading, 30⟩

def policy9b : DataRetentionPolicy :=
  ⟨"P2", none, none, RetentionEntityType.AuditLog, 30⟩

def reading9old : MeterReading := ⟨"M1", 69, 1, none, none⟩

def reading9new : MeterReading := ⟨"M1", 70, 2, none, none⟩

/-- Two global 30-day policies; the audit-log one is made to fail. -/
def store9 : Store :=
  { emptyStore with
    consumers := [⟨"C1", "S1", "B1"⟩]
    meters := [⟨"M1", "C1", "T1"⟩]
    readings := [reading9old, reading9new]
    users := [⟨"U1", some "S1", some "B1"⟩]
    auditLogs := [⟨"U1", 10⟩]
    policies := [policy9a, policy9b] }

def failP9 : DataRetentionPolicy → Bool := fun p => p.id == "P2"

/-- C9 (witness): sweeping `store9` at `now = 100` — the reading at day
    69 is deleted, the one at day 70 retained (cutoff `100 − 30 = 70`
    is strict); the failing audit-log policy reports `deletedCount = 0`
    and leaves its table untouched, yet still appears in the results. -/
theorem retention_cleanup_spec_witness :
    ((runRetentionCleanup failP9 100 store9).2).map
        (fun res => (res.policyId, res.entityType, res.retentionDays, res.cutoffDate))
      = store9.policies.map
          (fun p => (p.id, p.entityType, p.retentionDays, 100 - p.retentionDays)) ∧
    ((⟨"P2", RetentionEntityType.AuditLog, 30, 70, 0⟩, policy9b) :
        CleanupResult × DataRetentionPolicy) ∈
      ((runRetentionCleanup failP9 100 store9).2.zip store9.policies) ∧
    (⟨"P2", RetentionEntityType.AuditLog, 30, 70, 0⟩ : CleanupResult).deletedCount = 0 ∧
    (runRetentionCleanup failP9 100 store9).1.readings = [reading9new] ∧
    (runRetentionCleanup failP9 100 store9).1.auditLogs = store9.auditLogs := by
  have hmem : ((⟨"P2", RetentionEntityType.AuditLog, 30, 70, 0⟩, policy9b) :
      CleanupResult × DataRetentionPolicy) ∈
      ((runRetentionCleanup failP9 100 store9).2.zip store9.policies) := by
    simp [runRetentionCleanup, runSweep, deleteOldRecords, readingScopeOk,
          auditScopeOk, failP9, store9, policy9a, policy9b, reading9old, reading9new,
          emptyStore, findMeter, findConsumer, List.find?, List.filter]
  refine ⟨retention_cleanup_spec.1 failP9 100 store9, hmem,
    retention_cleanup_spec.2.1 failP9 100 store9 _ hmem (by simp [failP9, policy9b]),
    ?_, ?_⟩
  · simp [runRetentionCleanup, runSweep, deleteOldRecords, readingScopeOk, failP9,
          store9, policy9a, policy9b, reading9old, reading9new, emptyStore,
          findMeter, findConsumer, List.find?, List.filter]
  · simp [runRetentionCleanup, runSweep, deleteOldRecords, readingScopeOk, failP9,
          store9, policy9a, policy9b, reading9old, reading9new, emptyStore,
          findMeter, findConsumer, List.find?, List.filter]

end SMA
